import Mathlib

/-!
Verification of `src/scripts/scripts.js`, the single page-behaviour script of
this repository.  The script is a collection of independent DOM controllers;
we give a shallow embedding of each controller that the claims touch:

* the mobile navigation toggle (`setOpen` and its event handlers),
* the sidebar overlay (`openSidebar` / `closeSidebar` and handlers),
* the sections pill overlay (`openOverlay` / `closeOverlay` and handlers),
* the form-validation machinery (`showError`, `validators`, `validate`,
  the submit handler),
* the scroll-spy callback (`spy`) and `setActive`,
* the back-to-top FAB `update` function,
* the scroll-reveal initialisation block.

DOM state touched by a controller is modelled as an explicit record
(class-list membership as `Bool` fields, attributes and `textContent`
as `String` fields); each JS event handler becomes a pure state-transition
function, and a whole user session is a `List` of events folded over the
initial state.
-/

namespace Scripts

/-! ### Mobile navigation toggle, scripts.js lines 20-67

The DOM state the controller manipulates: the nav panel's `open` class,
the toggle button's `aria-expanded` attribute, and `document.body.style.overflow`
(the body scroll lock). -/

structure NavState where
  openClass : Bool
  ariaExpanded : String
  bodyOverflow : String
  deriving Repr, DecidableEq

/-- `setOpen(open)` (lines 24-31): toggles the `open` class to the given flag,
sets `aria-expanded` to `String(open)` and the body overflow to `'hidden'` or `''`.
(The focus call on line 29 touches no state modelled here.) -/
def setOpen (o : Bool) (_s : NavState) : NavState :=
  { openClass := o
    ariaExpanded := if o then "true" else "false"
    bodyOverflow := if o then "hidden" else "" }

/-- The events whose handlers drive the nav controller (lines 33-66). -/
inductive NavEvent where
  /-- click on `.nav-toggle` (line 33) -/
  | toggleClick
  /-- click on an `<a>` inside the nav (line 39) -/
  | navLinkClick
  /-- document click outside the nav and not on the toggle (line 47) -/
  | outsideClick
  /-- `Escape` keydown (line 54) -/
  | escapeKey
  /-- window resize with `(min-width: 901px)` matching (line 62) -/
  | resizeWide
  /-- window resize with the media query not matching -/
  | resizeNarrow
  deriving Repr, DecidableEq

/-- One step of the nav controller: each handler exactly as registered in
lines 33-66 of the source. -/
def navStep (s : NavState) (e : NavEvent) : NavState :=
  match e with
  | .toggleClick => setOpen (!s.openClass) s
  | .navLinkClick => setOpen false s
  | .outsideClick => if s.openClass then setOpen false s else s
  | .escapeKey => if s.openClass then setOpen false s else s
  | .resizeWide => if s.openClass then setOpen false s else s
  | .resizeNarrow => s

/-- The page's initial state: nav closed, no body scroll lock. -/
def navInit : NavState :=
  { openClass := false, ariaExpanded := "false", bodyOverflow := "" }

/-- The open marker and the body scroll lock agree: overflow is `'hidden'`
exactly when the panel is open, `''` when it is closed. -/
def navSynced (s : NavState) : Prop :=
  s.bodyOverflow = if s.openClass then "hidden" else ""

/-! ### Sidebar overlay controller, scripts.js lines 186-241 -/

structure SidebarState where
  sidebarOpen : Bool
  backdropOpen : Bool
  ariaExpanded : String
  bodyOverflow : String
  deriving Repr, DecidableEq

/-- `openSidebar` (lines 211-217): adds the `open` classes, sets
`aria-expanded='true'` and locks body scroll. -/
def openSidebar (_s : SidebarState) : SidebarState :=
  { sidebarOpen := true, backdropOpen := true
    ariaExpanded := "true", bodyOverflow := "hidden" }

/-- `closeSidebar` (lines 219-225): removes the `open` classes, sets
`aria-expanded='false'` and releases body scroll. -/
def closeSidebar (_s : SidebarState) : SidebarState :=
  { sidebarOpen := false, backdropOpen := false
    ariaExpanded := "false", bodyOverflow := "" }

inductive SidebarEvent where
  /-- click on the injected floating toggle button (line 227) -/
  | toggleBtnClick
  /-- click on the injected close button (line 228) -/
  | closeBtnClick
  /-- click on the backdrop (line 229) -/
  | backdropClick
  /-- `Escape` keydown (line 231) -/
  | escapeKey
  /-- click on a link inside the sidebar (line 238) -/
  | sidebarLinkClick
  deriving Repr, DecidableEq

def sidebarStep (s : SidebarState) (e : SidebarEvent) : SidebarState :=
  match e with
  | .toggleBtnClick => openSidebar s
  | .closeBtnClick => closeSidebar s
  | .backdropClick => closeSidebar s
  | .escapeKey => if s.sidebarOpen then closeSidebar s else s
  | .sidebarLinkClick => closeSidebar s

def sidebarInit : SidebarState :=
  { sidebarOpen := false, backdropOpen := false
    ariaExpanded := "false", bodyOverflow := "" }

def sidebarSynced (s : SidebarState) : Prop :=
  s.bodyOverflow = if s.sidebarOpen then "hidden" else ""

/-! ### Sections pill overlay controller, scripts.js lines 243-296 -/

structure OverlayState where
  overlayOpen : Bool
  ariaExpanded : String
  bodyOverflow : String
  deriving Repr, DecidableEq

/-- `openOverlay` (lines 264-271). -/
def openOverlay (_s : OverlayState) : OverlayState :=
  { overlayOpen := true, ariaExpanded := "true", bodyOverflow := "hidden" }

/-- `closeOverlay` (lines 272-277). -/
def closeOverlay (_s : OverlayState) : OverlayState :=
  { overlayOpen := false, ariaExpanded := "false", bodyOverflow := "" }

inductive OverlayEvent where
  /-- click on the sections pill (line 279): toggles -/
  | pillClick
  /-- click on the close button in the sheet (line 282) -/
  | closeBtnClick
  /-- click landing directly on the overlay backdrop, `e.target === overlay` (line 283) -/
  | backdropClick
  /-- click inside the sheet on a non-link target: both delegated handlers no-op -/
  | sheetOtherClick
  /-- `Escape` keydown (line 286) -/
  | escapeKey
  /-- click on an `<a>` inside the cloned sheet list (line 290) -/
  | sheetLinkClick
  deriving Repr, DecidableEq

def overlayStep (s : OverlayState) (e : OverlayEvent) : OverlayState :=
  match e with
  | .pillClick => if s.overlayOpen then closeOverlay s else openOverlay s
  | .closeBtnClick => closeOverlay s
  | .backdropClick => closeOverlay s
  | .sheetOtherClick => s
  | .escapeKey => if s.overlayOpen then closeOverlay s else s
  | .sheetLinkClick => closeOverlay s

def overlayInit : OverlayState :=
  { overlayOpen := false, ariaExpanded := "false", bodyOverflow := "" }

def overlaySynced (s : OverlayState) : Prop :=
  s.bodyOverflow = if s.overlayOpen then "hidden" else ""

/-! ### Form validation, scripts.js lines 86-138

A form field is modelled with the properties the validators and `showError`
read and write.  The adjacent `.field-error` display element created by
`ensureErrorEl` is folded into the field record (`errText`, `errActive`),
since it exists one-per-field and only `showError` touches it. -/

structure FormField where
  /-- `field.tagName`, upper case in the DOM, e.g. `"INPUT"`, `"TEXTAREA"` -/
  tagName : String
  /-- `field.type`, e.g. `"email"`, `"text"` -/
  fieldTypeAttr : String
  /-- `field.required` -/
  required : Bool
  /-- `field.getAttribute('minlength')`.  The HTML attribute is a
  non-negative integer rendered as a digit string; we carry the number,
  with `none` standing for both an absent attribute and the empty string
  (both falsy in the `if (min && ...)` guard; `"0"` is truthy and `some 0`
  behaves identically since no length is below 0). -/
  minlength : Option Nat
  /-- `field.value` -/
  value : String
  /-- `field.classList.contains('error')` -/
  hasErrorClass : Bool
  /-- `field.getAttribute('aria-invalid')` -/
  ariaInvalid : String
  /-- the `.field-error` element's `textContent` -/
  errText : String
  /-- the `.field-error` element's `classList.contains('active')` -/
  errActive : Bool
  deriving Repr, DecidableEq

/-- The character class of an unflagged JavaScript regex `.`: any character
except a line terminator (LF, CR, LS, PS). -/
def jsRegexDot (c : Char) : Bool :=
  !(c == '\n' || c == '\r' || c == ' ' || c == ' ')

/-- `/.+@.+\..+/.test(s)`: the unanchored search succeeds iff some position
`p` holds `'@'` with at least one `.`-matchable character before it, some
later position `q ≥ p+2` holds `'.'` with every character strictly between
`p` and `q` matchable by `.`, and the character right after `q` exists and is
matchable by `.`. -/
def emailRegexTest (s : String) : Bool :=
  let cs := s.data
  let n := cs.length
  (List.range n).any fun p =>
    (List.range n).any fun q =>
      decide (1 ≤ p) && decide (p + 2 ≤ q) && decide (q + 2 ≤ n) &&
      (cs.getD p ' ' == '@') && (cs.getD q ' ' == '.') &&
      jsRegexDot (cs.getD (p - 1) ' ') &&
      ((List.range (q - p - 1)).all fun i => jsRegexDot (cs.getD (p + 1 + i) ' ')) &&
      jsRegexDot (cs.getD (q + 1) ' ')

/-- The JavaScript `String.prototype.trim` whitespace set: WhiteSpace
(TAB, VT, FF, SP, NBSP, ZWNBSP and Unicode space separators) plus the
line terminators. -/
def isJsWhitespace (c : Char) : Bool :=
  c == ' ' || c == '\t' || c == '\n' || c == '\r' ||
  c == '\u000B' || c == '\u000C' || c == ' ' || c == '﻿' ||
  c == ' ' || (0x2000 ≤ c.toNat && c.toNat ≤ 0x200A) ||
  c == ' ' || c == ' ' || c == ' ' || c == ' ' ||
  c == '　'

/-- `s.trim()`: strip leading and trailing JS whitespace. -/
def jsTrim (s : String) : String :=
  ⟨((s.data.dropWhile isJsWhitespace).reverse.dropWhile isJsWhitespace).reverse⟩

/-- `validators.email` (lines 107-110): empty value (falsy string) fails as
required; otherwise the loose regex decides between no error and the
invalid-format message.  Only `f.value` is read. -/
def validatorsEmail (f : FormField) : String :=
  if f.value = "" then "Email is required."
  else if emailRegexTest f.value then "" else "Enter a valid email."

/-- `validators.text` (line 111). -/
def validatorsText (f : FormField) : String :=
  if f.required && (jsTrim f.value == "") then "This field is required." else ""

/-- `validators.textarea` (lines 112-117): required-and-blank first, then
the minlength check. -/
def validatorsTextarea (f : FormField) : String :=
  if f.required && (jsTrim f.value == "") then "Message is required."
  else
    match f.minlength with
    | some min =>
      if (jsTrim f.value).length < min then
        "Please write at least " ++ toString min ++ " characters."
      else ""
    | none => ""

/-- Line 120: `field.tagName.toLowerCase() === 'textarea' ? 'textarea' : (field.type || 'text')`. -/
def fieldKind (f : FormField) : String :=
  if f.tagName.toLower == "textarea" then "textarea"
  else if f.fieldTypeAttr == "" then "text" else f.fieldTypeAttr

/-- Line 121: `validators[type] || validators.text` — the lookup table has
exactly the keys `email`, `text`, `textarea`, with `validators.text` as
fallback. -/
def validatorFor (t : String) : FormField → String :=
  if t == "email" then validatorsEmail
  else if t == "text" then validatorsText
  else if t == "textarea" then validatorsTextarea
  else validatorsText

/-- The message the validation pass computes for a field (lines 120-122). -/
def fieldMsg (f : FormField) : String :=
  validatorFor (fieldKind f) f

/-- `showError(field, msg)` (lines 99-105): writes the error element's text
(`msg || ''` equals `msg` for strings since only `''` is falsy), toggles its
`active` class and the field's `error` class on `!!msg`, and sets
`aria-invalid` to `'true'`/`'false'` accordingly. -/
def showError (f : FormField) (msg : String) : FormField :=
  { f with
    errText := msg
    errActive := msg ≠ ""
    hasErrorClass := msg ≠ ""
    ariaInvalid := if msg ≠ "" then "true" else "false" }

/-- `validate(field)` (lines 119-125): compute the message, render it, and
return `!msg` (true = valid). -/
def validate (f : FormField) : FormField × Bool :=
  let msg := fieldMsg f
  (showError f msg, msg == "")

/-- The observable outcome of the submit handler: the re-rendered fields,
whether `e.preventDefault()` ran, and which field (by index in document
order) received focus via `form.querySelector('.error')?.focus()`. -/
structure SubmitResult where
  fields : List FormField
  defaultPrevented : Bool
  focusedIndex : Option Nat
  deriving Repr, DecidableEq

/-- The submit handler (lines 130-137): revalidate every field, and if any
failed, prevent the default action and focus the first element carrying the
`error` class.  The injected `.field-error` elements never carry the `error`
class, so the query ranges over the fields in document order. -/
def submitHandler (fields : List FormField) : SubmitResult :=
  let fields2 := fields.map fun f => (validate f).1
  let ok := fields.all fun f => (validate f).2
  if ok then
    { fields := fields2, defaultPrevented := false, focusedIndex := none }
  else
    { fields := fields2, defaultPrevented := true
      focusedIndex := fields2.findIdx? (·.hasErrorClass) }

/-! ### Scroll-spy, scripts.js lines 140-184 -/

/-- An `IntersectionObserverEntry` as the spy callback reads it. -/
structure SpyEntry where
  isIntersecting : Bool
  /-- `boundingClientRect.top` -/
  top : Int
  /-- `target.id` -/
  targetId : String
  deriving Repr, DecidableEq

/-- A sidebar link as `setActive` sees it. -/
structure SpyLink where
  href : String
  active : Bool
  deriving Repr, DecidableEq

/-- `setActive(id)` (lines 152-154): each link's `active` class is toggled
to whether its `href` equals `'#' + id`. -/
def setActive (links : List SpyLink) (id : String) : List SpyLink :=
  links.map fun a => { a with active := a.href == "#" ++ id }

/-- The `spy` IntersectionObserver callback (lines 157-165): keep the
intersecting entries, sort them ascending by `boundingClientRect.top`
(the comparator `a.top - b.top`; JS `Array.sort` is stable, as is
`mergeSort`), and return the first one's id, if any. -/
def spyCallback (entries : List SpyEntry) : Option String :=
  let visible :=
    (entries.filter (·.isIntersecting)).mergeSort fun a b => decide (a.top ≤ b.top)
  visible.head?.map (·.targetId)

/-- One delivery of observer entries: run the callback and, when it picks a
section, mark its link active. -/
def spyUpdate (links : List SpyLink) (entries : List SpyEntry) : List SpyLink :=
  match spyCallback entries with
  | some id => setActive links id
  | none => links

/-! ### Back-to-top FAB, scripts.js lines 298-324 -/

/-- Line 307: `const threshold = 480`. -/
def fabThreshold : ℚ := 480

/-- The `update` function (lines 309-313): the FAB's `visible` class is
toggled to `window.scrollY > threshold`.  `scrollY` is a non-negative
double, modelled as a rational. -/
def fabUpdate (scrollY : ℚ) : Bool :=
  decide (scrollY > fabThreshold)

/-! ### Scroll reveal, scripts.js lines 69-84 -/

/-- An element matched by `.reveal`: we track its `visible` class. -/
structure RevealElem where
  visible : Bool
  deriving Repr, DecidableEq

/-- The outcome of the reveal initialisation block. -/
structure RevealOutcome where
  elems : List RevealElem
  observerCreated : Bool
  observedCount : Nat
  deriving Repr, DecidableEq

/-- The reveal block (lines 70-84): with motion allowed and
`IntersectionObserver` available, an observer is created and observes every
target (none made visible yet); otherwise every `.reveal` element
immediately gains the `visible` class and no observer exists. -/
def revealSetup (reduceMotion hasIntersectionObserver : Bool)
    (els : List RevealElem) : RevealOutcome :=
  if !reduceMotion && hasIntersectionObserver then
    { elems := els, observerCreated := true, observedCount := els.length }
  else
    { elems := els.map fun e => { e with visible := true }
      observerCreated := false, observedCount := 0 }

/-! ## Helper lemmas -/

theorem setOpen_synced (o : Bool) (s : NavState) : navSynced (setOpen o s) := by
  cases o <;> simp [navSynced, setOpen]

theorem navStep_synced {s : NavState} (h : navSynced s) (e : NavEvent) :
    navSynced (navStep s e) := by
  cases e
  case toggleClick => exact setOpen_synced (!s.openClass) s
  case navLinkClick => exact setOpen_synced false s
  case outsideClick =>
    dsimp [navStep]
    split
    · exact setOpen_synced false s
    · exact h
  case escapeKey =>
    dsimp [navStep]
    split
    · exact setOpen_synced false s
    · exact h
  case resizeWide =>
    dsimp [navStep]
    split
    · exact setOpen_synced false s
    · exact h
  case resizeNarrow => exact h

theorem navFold_synced (es : List NavEvent) :
    ∀ s : NavState, navSynced s → navSynced (es.foldl navStep s) := by
  induction es with
  | nil => intro s h; exact h
  | cons e es ih => intro s h; exact ih (navStep s e) (navStep_synced h e)

theorem openSidebar_synced (s : SidebarState) : sidebarSynced (openSidebar s) := by
  simp [sidebarSynced, openSidebar]

theorem closeSidebar_synced (s : SidebarState) : sidebarSynced (closeSidebar s) := by
  simp [sidebarSynced, closeSidebar]

theorem sidebarStep_synced {s : SidebarState} (h : sidebarSynced s) (e : SidebarEvent) :
    sidebarSynced (sidebarStep s e) := by
  cases e
  case toggleBtnClick => exact openSidebar_synced s
  case closeBtnClick => exact closeSidebar_synced s
  case backdropClick => exact closeSidebar_synced s
  case escapeKey =>
    dsimp [sidebarStep]
    split
    · exact closeSidebar_synced s
    · exact h
  case sidebarLinkClick => exact closeSidebar_synced s

theorem sidebarFold_synced (es : List SidebarEvent) :
    ∀ s : SidebarState, sidebarSynced s → sidebarSynced (es.foldl sidebarStep s) := by
  induction es with
  | nil => intro s h; exact h
  | cons e es ih => intro s h; exact ih (sidebarStep s e) (sidebarStep_synced h e)

theorem openOverlay_synced (s : OverlayState) : overlaySynced (openOverlay s) := by
  simp [overlaySynced, openOverlay]

theorem closeOverlay_synced (s : OverlayState) : overlaySynced (closeOverlay s) := by
  simp [overlaySynced, closeOverlay]

theorem overlayStep_synced {s : OverlayState} (h : overlaySynced s) (e : OverlayEvent) :
    overlaySynced (overlayStep s e) := by
  cases e
  case pillClick =>
    dsimp [overlayStep]
    split
    · exact closeOverlay_synced s
    · exact openOverlay_synced s
  case closeBtnClick => exact closeOverlay_synced s
  case backdropClick => exact closeOverlay_synced s
  case sheetOtherClick => exact h
  case escapeKey =>
    dsimp [overlayStep]
    split
    · exact closeOverlay_synced s
    · exact h
  case sheetLinkClick => exact closeOverlay_synced s

theorem overlayFold_synced (es : List OverlayEvent) :
    ∀ s : OverlayState, overlaySynced s → overlaySynced (es.foldl overlayStep s) := by
  induction es with
  | nil => intro s h; exact h
  | cons e es ih => intro s h; exact ih (overlayStep s e) (overlayStep_synced h e)

theorem emailRegexTest_at_mem {s : String} (h : emailRegexTest s = true) :
    '@' ∈ s.data := by
  unfold emailRegexTest at h
  simp only [List.any_eq_true, List.mem_range, Bool.and_eq_true, decide_eq_true_eq,
    beq_iff_eq] at h
  obtain ⟨p, hp, q, hq, hcj⟩ := h
  have hat : s.data.getD p ' ' = '@' := by tauto
  have hp' : p < s.data.length := hp
  rw [List.getD_eq_getElem s.data ' ' hp'] at hat
  exact hat ▸ List.getElem_mem hp'

/-! ## Claim theorems -/

/-- C1: for each of the three panel controllers (mobile nav, sidebar overlay,
sections overlay), every open transition sets both the open marker class and
the body scroll lock (`overflow: hidden`), every close transition clears
both, and after any sequence of that controller's events starting from the
initial closed page state, the open marker and the scroll lock are in sync:
the body overflow is `'hidden'` exactly when the panel is open and `''`
when it is closed. -/
theorem panels_open_marker_and_scroll_lock_in_sync :
    (∀ s : NavState, (setOpen true s).openClass = true ∧
      (setOpen true s).bodyOverflow = "hidden" ∧
      (setOpen false s).openClass = false ∧ (setOpen false s).bodyOverflow = "") ∧
    (∀ s : SidebarState, (openSidebar s).sidebarOpen = true ∧
      (openSidebar s).bodyOverflow = "hidden" ∧
      (closeSidebar s).sidebarOpen = false ∧ (closeSidebar s).bodyOverflow = "") ∧
    (∀ s : OverlayState, (openOverlay s).overlayOpen = true ∧
      (openOverlay s).bodyOverflow = "hidden" ∧
      (closeOverlay s).overlayOpen = false ∧ (closeOverlay s).bodyOverflow = "") ∧
    (∀ es : List NavEvent, navSynced (es.foldl navStep navInit)) ∧
    (∀ es : List SidebarEvent, sidebarSynced (es.foldl sidebarStep sidebarInit)) ∧
    (∀ es : List OverlayEvent, overlaySynced (es.foldl overlayStep overlayInit)) := by
  refine ⟨fun s => ⟨rfl, rfl, rfl, rfl⟩, fun s => ⟨rfl, rfl, rfl, rfl⟩,
    fun s => ⟨rfl, rfl, rfl, rfl⟩, fun es => ?_, fun es => ?_, fun es => ?_⟩
  · exact navFold_synced es navInit rfl
  · exact sidebarFold_synced es sidebarInit rfl
  · exact overlayFold_synced es overlayInit rfl

/-- C6: after a validation pass on any field, the rendered error message is
non-empty exactly when the field is marked invalid: the error element's
text, its `active` visibility class, the field's `error` class and the
field's `aria-invalid` attribute all agree with whether the computed
message is present. -/
theorem validation_pass_keeps_error_marking_consistent (f : FormField) :
    ((validate f).1.errText ≠ "" ↔ (validate f).1.hasErrorClass = true) ∧
    ((validate f).1.errText ≠ "" ↔ (validate f).1.ariaInvalid = "true") ∧
    ((validate f).1.errActive = (validate f).1.hasErrorClass) ∧
    (validate f).1.errText = fieldMsg f ∧
    ((validate f).2 = true ↔ (validate f).1.errText = "") := by
  by_cases h : fieldMsg f = "" <;>
    simp [validate, showError, h]

/-- C7: the back-to-top button's visibility is a strict threshold on the
vertical scroll offset: visible iff the offset strictly exceeds 480, so 479
and exactly 480 give hidden and 481 gives visible. -/
theorem backtotop_visible_iff_scroll_above_480 :
    (∀ y : ℚ, fabUpdate y = true ↔ y > 480) ∧
    fabUpdate 479 = false ∧ fabUpdate 480 = false ∧ fabUpdate 481 = true := by
  refine ⟨fun y => ?_, ?_, ?_, ?_⟩ <;>
    simp [fabUpdate, fabThreshold] <;> norm_num

/-- C8: with the reduced-motion preference set, the reveal block makes every
tagged element visible immediately at initialisation, creates no observer
and observes nothing. -/
theorem reveal_reduced_motion_all_visible_no_observer
    (hasObs : Bool) (els : List RevealElem) :
    (revealSetup true hasObs els).elems = els.map (fun e => { e with visible := true }) ∧
    ((revealSetup true hasObs els).elems.all (·.visible)) = true ∧
    (revealSetup true hasObs els).observerCreated = false ∧
    (revealSetup true hasObs els).observedCount = 0 := by
  refine ⟨rfl, ?_, rfl, rfl⟩
  simp [revealSetup, List.all_eq_true]

/-- C9 (implicit): when the `IntersectionObserver` API is unavailable, the
reveal block takes the same fallback path as reduced motion regardless of
the preference: every tagged element is made visible immediately and no
observer is created or observes anything. -/
theorem reveal_without_observer_api_all_visible
    (reduceMotion : Bool) (els : List RevealElem) :
    (revealSetup reduceMotion false els).elems =
      els.map (fun e => { e with visible := true }) ∧
    ((revealSetup reduceMotion false els).elems.all (·.visible)) = true ∧
    (revealSetup reduceMotion false els).observerCreated = false ∧
    (revealSetup reduceMotion false els).observedCount = 0 := by
  refine ⟨?_, ?_, ?_, ?_⟩ <;>
    simp [revealSetup, List.all_eq_true]

/-- C3: the email validator first demands a non-empty value (the `required`
message), then applies the loose `text@text.text` regex: for a non-empty
value, it returns the invalid-format message exactly when the regex search
fails; in particular `'a@b'` (no dot after the domain) yields the
invalid-format message and `'a@b.com'` yields no error. -/
theorem email_validator_required_then_format (f : FormField) :
    (validatorsEmail f =
      if f.value = "" then "Email is required."
      else if emailRegexTest f.value then "" else "Enter a valid email.") ∧
    (validatorsEmail f = "" ↔ f.value ≠ "" ∧ emailRegexTest f.value = true) ∧
    validatorsEmail { f with value := "a@b" } = "Enter a valid email." ∧
    validatorsEmail { f with value := "a@b.com" } = "" := by
  refine ⟨rfl, ?_, ?_, ?_⟩
  · by_cases h : f.value = "" <;> by_cases h2 : emailRegexTest f.value <;>
      simp [validatorsEmail, h, h2]
  · rfl
  · rfl

/-- C4: the textarea validator checks required-and-blank first (so the
`required` message wins over the length check), then the minlength bound
against the trimmed length; with `required` and `minlength="10"`,
`'short'` yields the too-short message, a 10+-character trimmed value
yields no error, and the empty value yields the `required` message. -/
theorem textarea_validator_required_wins_then_minlength (f : FormField) :
    (validatorsTextarea f =
      if f.required = true ∧ jsTrim f.value = "" then "Message is required."
      else
        match f.minlength with
        | some m =>
          if (jsTrim f.value).length < m then
            "Please write at least " ++ toString m ++ " characters."
          else ""
        | none => "") ∧
    validatorsTextarea
      { f with tagName := "TEXTAREA", required := true, minlength := some 10,
               value := "short" } = "Please write at least 10 characters." ∧
    validatorsTextarea
      { f with tagName := "TEXTAREA", required := true, minlength := some 10,
               value := "long enough text" } = "" ∧
    validatorsTextarea
      { f with tagName := "TEXTAREA", required := true, minlength := some 10,
               value := "" } = "Message is required." := by
  refine ⟨?_, ?_, ?_, ?_⟩
  · by_cases hr : f.required <;> by_cases hv : jsTrim f.value = "" <;>
      simp [validatorsTextarea, hr, hv]
  · rfl
  · rfl
  · rfl

/-- C10 (implicit): the email validator neither trims its input nor consults
the `required` flag: its result depends only on `value`; a whitespace-only
value counts as non-empty and so draws the invalid-format message rather
than the `required` one; and the empty string draws the `required` message
even on a field not marked required. -/
theorem email_validator_untrimmed_and_required_blind :
    (∀ f g : FormField, f.value = g.value → validatorsEmail f = validatorsEmail g) ∧
    (∀ f : FormField, f.value ≠ "" →
      (∀ c ∈ f.value.data, isJsWhitespace c = true) →
        validatorsEmail f = "Enter a valid email.") ∧
    (∀ f : FormField,
      validatorsEmail { f with value := " ", required := false } =
        "Enter a valid email.") ∧
    (∀ f : FormField,
      validatorsEmail { f with value := "", required := false } =
        "Email is required.") := by
  refine ⟨?_, ?_, ?_, ?_⟩
  · intro f g h
    simp [validatorsEmail, h]
  · intro f hne hws
    have hfail : emailRegexTest f.value = false := by
      by_contra hcontra
      have htrue : emailRegexTest f.value = true := by
        revert hcontra
        cases emailRegexTest f.value <;> simp
      have hat := emailRegexTest_at_mem htrue
      have := hws '@' hat
      simp [isJsWhitespace] at this
    simp [validatorsEmail, hne, hfail]
  · intro f
    rfl
  · intro f
    rfl

/-- Witness for C10: the second part applied to a concrete whitespace-only
email field, and the first part applied to two concrete fields differing
only off the `value` property. -/
theorem email_validator_untrimmed_and_required_blind_witness :
    validatorsEmail
      { tagName := "INPUT", fieldTypeAttr := "email", required := true,
        minlength := none, value := " ", hasErrorClass := false,
        ariaInvalid := "false", errText := "", errActive := false } =
      "Enter a valid email." ∧
    validatorsEmail
      { tagName := "INPUT", fieldTypeAttr := "email", required := true,
        minlength := none, value := "a@b.com", hasErrorClass := false,
        ariaInvalid := "false", errText := "", errActive := false } =
      validatorsEmail
      { tagName := "INPUT", fieldTypeAttr := "email", required := false,
        minlength := none, value := "a@b.com", hasErrorClass := true,
        ariaInvalid := "true", errText := "x", errActive := true } :=
  ⟨email_validator_untrimmed_and_required_blind.2.1 _ (by decide) (by decide),
   email_validator_untrimmed_and_required_blind.1 _ _ rfl⟩

/-- C5: the submit handler revalidates every field; the default action is
prevented exactly when some field fails validation (and proceeds when all
pass), and in that case focus goes to the first field in document order that
carries the `error` indicator class — which after revalidation is the first
field whose validator message is non-empty. -/
theorem submit_revalidates_blocks_and_focuses_first_error (fields : List FormField) :
    ((submitHandler fields).fields = fields.map fun f => (validate f).1) ∧
    ((submitHandler fields).defaultPrevented = true ↔ ∃ f ∈ fields, fieldMsg f ≠ "") ∧
    ((submitHandler fields).defaultPrevented = false ↔ ∀ f ∈ fields, fieldMsg f = "") ∧
    ((submitHandler fields).focusedIndex =
      if (submitHandler fields).defaultPrevented then
        fields.findIdx? fun f => decide (fieldMsg f ≠ "")
      else none) := by
  by_cases hok : (fields.all fun f => (validate f).2) = true
  · have hforall : ∀ f ∈ fields, fieldMsg f = "" := by
      intro f hf
      have h := List.all_eq_true.mp hok f hf
      simpa [validate] using h
    have hs : submitHandler fields =
        { fields := fields.map fun f => (validate f).1
          defaultPrevented := false, focusedIndex := none } := by
      simp [submitHandler, hok]
    rw [hs]
    refine ⟨rfl, ?_, ?_, ?_⟩
    · constructor
      · intro h
        exact absurd h (by simp)
      · rintro ⟨f, hf, hne⟩
        exact absurd (hforall f hf) hne
    · exact ⟨fun _ => hforall, fun _ => rfl⟩
    · simp
  · have hfalse : (fields.all fun f => (validate f).2) = false := by
      simpa using hok
    have hex : ∃ f ∈ fields, fieldMsg f ≠ "" := by
      obtain ⟨f, hf, hp⟩ := List.all_eq_false.mp hfalse
      refine ⟨f, hf, fun h => hp ?_⟩
      simp [validate, h]
    have hs : submitHandler fields =
        { fields := fields.map fun f => (validate f).1
          defaultPrevented := true
          focusedIndex :=
            (fields.map fun f => (validate f).1).findIdx? (·.hasErrorClass) } := by
      simp [submitHandler, hfalse]
    rw [hs]
    refine ⟨rfl, ?_, ?_, ?_⟩
    · simp [hex]
    · constructor
      · intro h
        exact absurd h (by simp)
      · intro hall
        obtain ⟨f, hf, hne⟩ := hex
        exact absurd (hall f hf) hne
    · show (fields.map fun f => (validate f).1).findIdx? (·.hasErrorClass) =
        if true then fields.findIdx? (fun f => decide (fieldMsg f ≠ "")) else none
      rw [if_pos rfl, List.findIdx?_map]
      congr 1

/-- C2: among the entries delivered to the scroll-spy callback, whenever at
least one section satisfies the intersection condition, the callback picks
an intersecting section whose `boundingClientRect.top` is minimal over all
intersecting entries (the topmost one), and `setActive` then marks exactly
the links whose `href` targets that section's id. -/
theorem scrollspy_marks_topmost_intersecting_section
    (entries : List SpyEntry) (links : List SpyLink)
    (h : ∃ e ∈ entries, e.isIntersecting = true) :
    ∃ id e, spyCallback entries = some id ∧ e ∈ entries ∧ e.isIntersecting = true ∧
      e.targetId = id ∧
      (∀ e' ∈ entries, e'.isIntersecting = true → e.top ≤ e'.top) ∧
      ∀ l ∈ setActive links id, (l.active = true ↔ l.href = "#" ++ id) := by
  obtain ⟨e0, he0, hint⟩ := h
  have htrans : ∀ a b c : SpyEntry, decide (a.top ≤ b.top) = true →
      decide (b.top ≤ c.top) = true → decide (a.top ≤ c.top) = true := by
    intro a b c hab hbc
    simp only [decide_eq_true_eq] at *
    omega
  have htotal : ∀ a b : SpyEntry,
      (decide (a.top ≤ b.top) || decide (b.top ≤ a.top)) = true := by
    intro a b
    simp only [Bool.or_eq_true, decide_eq_true_eq]
    omega
  have hmem : e0 ∈ entries.filter (·.isIntersecting) :=
    List.mem_filter.mpr ⟨he0, hint⟩
  have hmem2 : e0 ∈ (entries.filter (·.isIntersecting)).mergeSort
      (fun a b => decide (a.top ≤ b.top)) := List.mem_mergeSort.mpr hmem
  have hne : (entries.filter (·.isIntersecting)).mergeSort
      (fun a b => decide (a.top ≤ b.top)) ≠ [] := List.ne_nil_of_mem hmem2
  obtain ⟨hd, tl, hcons⟩ := List.exists_cons_of_ne_nil hne
  have hpair := List.sorted_mergeSort htrans htotal (entries.filter (·.isIntersecting))
  rw [hcons] at hpair
  have hhd : hd ∈ entries.filter (·.isIntersecting) :=
    List.mem_mergeSort.mp (hcons ▸ List.mem_cons_self hd tl)
  refine ⟨hd.targetId, hd, ?_, (List.mem_filter.mp hhd).1,
    (List.mem_filter.mp hhd).2, rfl, ?_, ?_⟩
  · show ((entries.filter (·.isIntersecting)).mergeSort
      (fun a b => decide (a.top ≤ b.top))).head?.map (·.targetId) = some hd.targetId
    rw [hcons]
    rfl
  · intro e' he' hint'
    have hmem' : e' ∈ (entries.filter (·.isIntersecting)).mergeSort
        (fun a b => decide (a.top ≤ b.top)) :=
      List.mem_mergeSort.mpr (List.mem_filter.mpr ⟨he', hint'⟩)
    rw [hcons] at hmem'
    rcases List.mem_cons.mp hmem' with h1 | h2
    · rw [h1]
    · have := (List.pairwise_cons.mp hpair).1 e' h2
      simpa using this
  · intro l hl
    simp only [setActive, List.mem_map] at hl
    obtain ⟨a, _, rfl⟩ := hl
    simp [beq_iff_eq]

/-- Witness for C2: two overlapping-visible sections, tops 120 and 40; the
intersection hypothesis holds and the theorem applies, so the callback picks
the section whose top edge is closer to the viewport top. -/
theorem scrollspy_marks_topmost_intersecting_section_witness :
    (∃ e ∈ ([⟨true, 120, "b"⟩, ⟨true, 40, "a"⟩] : List SpyEntry),
      e.isIntersecting = true) ∧
    (∃ id e, spyCallback [⟨true, 120, "b"⟩, ⟨true, 40, "a"⟩] = some id ∧
      e ∈ ([⟨true, 120, "b"⟩, ⟨true, 40, "a"⟩] : List SpyEntry) ∧
      e.isIntersecting = true ∧ e.targetId = id ∧
      (∀ e' ∈ ([⟨true, 120, "b"⟩, ⟨true, 40, "a"⟩] : List SpyEntry),
        e'.isIntersecting = true → e.top ≤ e'.top) ∧
      ∀ l ∈ setActive [⟨"#a", false⟩, ⟨"#b", false⟩] id,
        (l.active = true ↔ l.href = "#" ++ id)) :=
  ⟨by decide,
   scrollspy_marks_topmost_intersecting_section
     [⟨true, 120, "b"⟩, ⟨true, 40, "a"⟩] [⟨"#a", false⟩, ⟨"#b", false⟩]
     (by decide)⟩

end Scripts
